import Mathlib

/-!
Shallow embedding of `src/_ntfysenderclass.py` (class `NtfySender`), a minimal
client that sends notification messages to an ntfy-style server over HTTP.

Python dicts (the `self.headers` mapping and the JSON body) are modelled as
insertion-ordered association lists.  Header values may be `None` in the source
(the `Click` header is assigned `link_url`, an `Optional[str]`), so a header
value is an `Option String`.  The single HTTP POST performed by `send_msg` is
modelled by returning the issued request alongside the updated client state.
-/

set_option autoImplicit false

/-- A Python header value: a `str` or `None`. -/
abbrev HeaderValue := Option String

/-- A Python `dict` with string keys, kept in insertion order. -/
abbrev PyDict (α : Type) := List (String × α)

/-- Python dict assignment `d[k] = v`: if the key is already present its value
is replaced in place, otherwise the pair is appended (insertion order). -/
def dictSet {α : Type} : PyDict α → String → α → PyDict α
  | [], k, v => [(k, v)]
  | (k1, v1) :: rest, k, v =>
    if k1 = k then (k, v) :: rest else (k1, v1) :: dictSet rest k v

/-- Python dict lookup `d.get(k)`: `some v` when the key is present. -/
def dictGet {α : Type} : PyDict α → String → Option α
  | [], _ => none
  | (k1, v1) :: rest, k => if k1 = k then some v1 else dictGet rest k

/-- UTF-8 encoding of a single code point, as produced by Python
`str.encode()` (byte values as naturals). -/
def utf8Bytes (c : Char) : List Nat :=
  let n := c.toNat
  if n < 128 then [n]
  else if n < 2048 then [192 + n / 64, 128 + n % 64]
  else if n < 65536 then [224 + n / 4096, 128 + n / 64 % 64, 128 + n % 64]
  else [240 + n / 262144, 128 + n / 4096 % 64, 128 + n / 64 % 64, 128 + n % 64]

/-- UTF-8 bytes of a whole string, as produced by Python `str.encode()`. -/
def strBytes (s : String) : List Nat := (s.data.map utf8Bytes).flatten

/-- The standard base64 alphabet of RFC 4648, used by `base64.b64encode`. -/
def b64Alphabet : List Char :=
  "ABCDEFGHIJKLMNOPQRSTUVWXYZabcdefghijklmnopqrstuvwxyz0123456789+/".data

/-- The base64 digit for a 6-bit value. -/
def b64Char (n : Nat) : Char := b64Alphabet.getD n '='

/-- Base64-encode a byte list three bytes at a time, with `=` padding. -/
def b64Groups : List Nat → List Char
  | [] => []
  | [a] => [b64Char (a / 4), b64Char (a % 4 * 16), '=', '=']
  | [a, b] => [b64Char (a / 4), b64Char (a % 4 * 16 + b / 16), b64Char (b % 16 * 4), '=']
  | a :: b :: c :: rest =>
    b64Char (a / 4) :: b64Char (a % 4 * 16 + b / 16) ::
      b64Char (b % 16 * 4 + c / 64) :: b64Char (c % 64) :: b64Groups rest

/-- `base64.b64encode(bs).decode()`: the base64 text of a byte list. -/
def b64encode (bs : List Nat) : String := String.mk (b64Groups bs)

/-- The state of an `NtfySender` instance: the two configuration strings set in
`__init__`, the `_auth` field set by `__set_auth`, and the mutable `headers`
dict set by `__set_header` and updated by every `send_msg`. -/
structure NtfySender where
  server_url : String
  default_topic : String
  _auth : Option String
  headers : PyDict HeaderValue

/-- `NtfySender.__set_auth`: `None` when either credential is `None`,
otherwise `"Basic " + base64("{ntfy_user}:{ntfy_password}")`. -/
def set_auth (ntfy_user ntfy_password : Option String) : Option String :=
  match ntfy_user, ntfy_password with
  | none, _ => none
  | _, none => none
  | some u, some p => some ("Basic " ++ b64encode (strBytes (u ++ ":" ++ p)))

/-- `NtfySender.__set_header`: start from the empty dict and add
`Authorization` iff `_auth` is set. -/
def set_header (auth : Option String) : PyDict HeaderValue :=
  match auth with
  | none => []
  | some a => dictSet [] "Authorization" (some a)

/-- `NtfySender.__init__`. -/
def NtfySender.init (server_url default_topic : String)
    (ntfy_user ntfy_password : Option String) : NtfySender :=
  let auth := set_auth ntfy_user ntfy_password
  { server_url := server_url
    default_topic := default_topic
    _auth := auth
    headers := set_header auth }

/-- The single HTTP POST issued by `send_msg`: target URL, the headers dict as
passed to `requests.post`, the dict serialized by `json.dumps` as the body,
and the timeout. -/
structure HttpRequest where
  url : String
  headers : PyDict HeaderValue
  body : PyDict String
  timeout : Int
  deriving DecidableEq

/-- `NtfySender.send_msg`: resolve the topic, mutate `self.headers` in place
(`Title` and `Click` always, `Tags`/`Icon` only when given) and POST once.
Returns the updated client state together with the issued request. -/
def NtfySender.send_msg (s : NtfySender) (title message : String)
    (link_url topic tags icon : Option String) (timeout : Int) :
    NtfySender × HttpRequest :=
  let topic_send := match topic with
    | none => s.default_topic
    | some t => t
  let h1 := dictSet s.headers "Title" (some title)
  let h2 := dictSet h1 "Click" link_url
  let h3 := match tags with
    | none => h2
    | some t => dictSet h2 "Tags" (some t)
  let h4 := match icon with
    | none => h3
    | some i => dictSet h3 "Icon" (some i)
  ({ s with headers := h4 },
   { url := s.server_url
     headers := h4
     body := dictSet (dictSet [] "topic" topic_send) "message" message
     timeout := timeout })

/-- The arguments of one `send_msg` call. -/
structure SendArgs where
  title : String
  message : String
  link_url : Option String
  topic : Option String
  tags : Option String
  icon : Option String
  timeout : Int

/-- A sequence of `send_msg` calls on the same client instance, returning the
final state and the list of issued requests (one per call). -/
def NtfySender.sendMany (s : NtfySender) : List SendArgs → NtfySender × List HttpRequest
  | [] => (s, [])
  | a :: rest =>
    let r := s.send_msg a.title a.message a.link_url a.topic a.tags a.icon a.timeout
    let rr := r.1.sendMany rest
    (rr.1, r.2 :: rr.2)

/-- `send_msg` with the transport made explicit: `post` stands for
`requests.post`, which either succeeds or fails with a transport error.  The
source wraps the call in no `try`, inspects no response, and returns `None`,
so the body mutates the headers, posts exactly once, and hands the transport
outcome back unchanged. -/
def NtfySender.send_msgE (s : NtfySender)
    (post : HttpRequest → Except String Unit) (title message : String)
    (link_url topic tags icon : Option String) (timeout : Int) :
    NtfySender × Except String Unit :=
  let r := s.send_msg title message link_url topic tags icon timeout
  (r.1, post r.2)

/-! Basic lemmas about the Python dict operations. -/

theorem dictGet_dictSet_self {α : Type} (d : PyDict α) (k : String) (v : α) :
    dictGet (dictSet d k v) k = some v := by
  induction d with
  | nil => simp [dictSet, dictGet]
  | cons p rest ih =>
    obtain ⟨k1, v1⟩ := p
    by_cases hk : k1 = k
    · simp [dictSet, dictGet, hk]
    · simp [dictSet, dictGet, hk, ih]

theorem dictGet_dictSet_ne {α : Type} (d : PyDict α) (k q : String) (v : α)
    (hne : q ≠ k) : dictGet (dictSet d k v) q = dictGet d q := by
  induction d with
  | nil => simp [dictSet, dictGet, Ne.symm hne]
  | cons p rest ih =>
    obtain ⟨k1, v1⟩ := p
    by_cases hk : k1 = k
    · subst hk
      simp [dictSet, dictGet, Ne.symm hne]
    · by_cases hq : k1 = q
      · subst hq
        simp [dictSet, dictGet, hk]
      · simp [dictSet, dictGet, hk, hq, ih]

/-! Helper lemmas about `send_msg` and `sendMany`. -/

/-- The headers sent with the request are exactly the client's mutated
headers dict (`requests.post` is handed `self.headers` itself). -/
theorem send_msg_req_headers (s : NtfySender) (title message : String)
    (link_url topic tags icon : Option String) (timeout : Int) :
    (s.send_msg title message link_url topic tags icon timeout).2.headers =
      (s.send_msg title message link_url topic tags icon timeout).1.headers := rfl

/-- `send_msg` never touches a header key other than `Title`, `Click`,
`Tags` and `Icon`. -/
theorem dictGet_send_msg_other (s : NtfySender) (title message : String)
    (link_url topic tags icon : Option String) (timeout : Int) (k : String)
    (h1 : k ≠ "Title") (h2 : k ≠ "Click") (h3 : k ≠ "Tags") (h4 : k ≠ "Icon") :
    dictGet (s.send_msg title message link_url topic tags icon timeout).1.headers k =
      dictGet s.headers k := by
  cases tags <;> cases icon <;>
    simp [NtfySender.send_msg, dictGet_dictSet_ne, h1, h2, h3, h4]

/-- After `send_msg`, the `Title` entry holds the title argument. -/
theorem dictGet_send_msg_title (s : NtfySender) (title message : String)
    (link_url topic tags icon : Option String) (timeout : Int) :
    dictGet (s.send_msg title message link_url topic tags icon timeout).1.headers "Title" =
      some (some title) := by
  cases tags <;> cases icon <;>
    simp [NtfySender.send_msg, dictGet_dictSet_ne, dictGet_dictSet_self]

/-- After `send_msg`, the `Click` entry holds the (possibly `None`)
`link_url` argument. -/
theorem dictGet_send_msg_click (s : NtfySender) (title message : String)
    (link_url topic tags icon : Option String) (timeout : Int) :
    dictGet (s.send_msg title message link_url topic tags icon timeout).1.headers "Click" =
      some link_url := by
  cases tags <;> cases icon <;>
    simp [NtfySender.send_msg, dictGet_dictSet_ne, dictGet_dictSet_self]

/-- A provided `tags` argument lands in the `Tags` entry. -/
theorem dictGet_send_msg_tags_some (s : NtfySender) (title message : String)
    (link_url topic icon : Option String) (timeout : Int) (tg : String) :
    dictGet (s.send_msg title message link_url topic (some tg) icon timeout).1.headers "Tags" =
      some (some tg) := by
  cases icon <;>
    simp [NtfySender.send_msg, dictGet_dictSet_ne, dictGet_dictSet_self]

/-- An omitted `tags` argument leaves the `Tags` entry untouched. -/
theorem dictGet_send_msg_tags_none (s : NtfySender) (title message : String)
    (link_url topic icon : Option String) (timeout : Int) :
    dictGet (s.send_msg title message link_url topic none icon timeout).1.headers "Tags" =
      dictGet s.headers "Tags" := by
  cases icon <;>
    simp [NtfySender.send_msg, dictGet_dictSet_ne]

/-- A provided `icon` argument lands in the `Icon` entry. -/
theorem dictGet_send_msg_icon_some (s : NtfySender) (title message : String)
    (link_url topic tags : Option String) (timeout : Int) (ic : String) :
    dictGet (s.send_msg title message link_url topic tags (some ic) timeout).1.headers "Icon" =
      some (some ic) := by
  cases tags <;>
    simp [NtfySender.send_msg, dictGet_dictSet_self]

/-- An omitted `icon` argument leaves the `Icon` entry untouched. -/
theorem dictGet_send_msg_icon_none (s : NtfySender) (title message : String)
    (link_url topic tags : Option String) (timeout : Int) :
    dictGet (s.send_msg title message link_url topic tags none timeout).1.headers "Icon" =
      dictGet s.headers "Icon" := by
  cases tags <;>
    simp [NtfySender.send_msg, dictGet_dictSet_ne]

/-- Across any sequence of sends, the `Authorization` entry of the headers
dict never changes: it is never among the keys written by `send_msg`. -/
theorem sendMany_auth_lookup (s : NtfySender) (args : List SendArgs) :
    dictGet (s.sendMany args).1.headers "Authorization" =
      dictGet s.headers "Authorization" ∧
    ∀ r ∈ (s.sendMany args).2,
      dictGet r.headers "Authorization" = dictGet s.headers "Authorization" := by
  induction args generalizing s with
  | nil => simp [NtfySender.sendMany]
  | cons a rest ih =>
    obtain ⟨ih1, ih2⟩ :=
      ih (s.send_msg a.title a.message a.link_url a.topic a.tags a.icon a.timeout).1
    have hpres := dictGet_send_msg_other s a.title a.message a.link_url a.topic
      a.tags a.icon a.timeout "Authorization"
      (by decide) (by decide) (by decide) (by decide)
    have hreq := send_msg_req_headers s a.title a.message a.link_url a.topic
      a.tags a.icon a.timeout
    simp only [NtfySender.sendMany, List.mem_cons]
    refine ⟨ih1.trans hpres, fun r hr => ?_⟩
    rcases hr with hr | hr
    · rw [hr, hreq, hpres]
    · exact (ih2 r hr).trans hpres

/-- `sendMany` issues exactly one request per `send_msg` call. -/
theorem sendMany_length (s : NtfySender) (args : List SendArgs) :
    (s.sendMany args).2.length = args.length := by
  induction args generalizing s with
  | nil => rfl
  | cons a rest ih => simp [NtfySender.sendMany, ih]

/-- With both credentials present, construction stores the Basic auth value. -/
theorem init_auth_lookup (url dt u p : String) :
    dictGet (NtfySender.init url dt (some u) (some p)).headers "Authorization" =
      some (some ("Basic " ++ b64encode (strBytes (u ++ ":" ++ p)))) := rfl

/-- With a missing credential, construction stores no `Authorization` entry. -/
theorem init_no_auth_lookup (url dt : String) (u p : Option String)
    (h : u = none ∨ p = none) :
    dictGet (NtfySender.init url dt u p).headers "Authorization" = none := by
  rcases h with h | h
  · subst h
    simp [NtfySender.init, set_auth, set_header, dictGet]
  · subst h
    cases u <;> simp [NtfySender.init, set_auth, set_header, dictGet]

/-! Claim theorems. -/

/-- C1: constructing the client with both a username and a password stores the
header `Authorization = "Basic " ++ base64(username ++ ":" ++ password)` at
construction, byte-exact, and every request issued by any subsequent sequence
of sends carries exactly that value. -/
theorem C1_basic_auth_header (url dt u p : String) (args : List SendArgs) :
    dictGet (NtfySender.init url dt (some u) (some p)).headers "Authorization" =
      some (some ("Basic " ++ b64encode (strBytes (u ++ ":" ++ p)))) ∧
    ∀ r ∈ ((NtfySender.init url dt (some u) (some p)).sendMany args).2,
      dictGet r.headers "Authorization" =
        some (some ("Basic " ++ b64encode (strBytes (u ++ ":" ++ p)))) := by
  refine ⟨init_auth_lookup url dt u p, fun r hr => ?_⟩
  exact ((sendMany_auth_lookup (NtfySender.init url dt (some u) (some p)) args).2
    r hr).trans (init_auth_lookup url dt u p)

/-- Witness for C1: the credentials bob/secret yield the header value
`Basic Ym9iOnNlY3JldA==` on the request of a concrete one-send sequence. -/
theorem C1_basic_auth_header_witness :
    dictGet ({ url := "https://ntfy.sh/"
               headers := [("Authorization", some "Basic Ym9iOnNlY3JldA=="),
                           ("Title", some "Disk Full"), ("Click", none)]
               body := [("topic", "alerts"), ("message", "90% used")]
               timeout := 10 } : HttpRequest).headers "Authorization" =
      some (some "Basic Ym9iOnNlY3JldA==") :=
  (C1_basic_auth_header "https://ntfy.sh/" "alerts" "bob" "secret"
    [⟨"Disk Full", "90% used", none, none, none, none, 10⟩]).2 _ (by decide)

/-- C2: when exactly one of the two credentials is missing the client is
anonymous: no `Authorization` entry at construction and none in the request
of any subsequent send. -/
theorem C2_partial_credentials_anonymous (url dt : String) (u p : Option String)
    (h : (u = none ∧ p ≠ none) ∨ (u ≠ none ∧ p = none)) (args : List SendArgs) :
    dictGet (NtfySender.init url dt u p).headers "Authorization" = none ∧
    ∀ r ∈ ((NtfySender.init url dt u p).sendMany args).2,
      dictGet r.headers "Authorization" = none := by
  have hinit : dictGet (NtfySender.init url dt u p).headers "Authorization" = none :=
    init_no_auth_lookup url dt u p (h.imp And.left And.right)
  refine ⟨hinit, fun r hr => ?_⟩
  exact ((sendMany_auth_lookup (NtfySender.init url dt u p) args).2 r hr).trans hinit

/-- Witness for C2: username omitted, password given; the client headers and
the request of a concrete one-send sequence carry no Authorization entry. -/
theorem C2_partial_credentials_anonymous_witness :
    dictGet (NtfySender.init "https://ntfy.sh/" "alerts" none
      (some "secret")).headers "Authorization" = none ∧
    dictGet ({ url := "https://ntfy.sh/"
               headers := [("Title", some "Disk Full"), ("Click", none)]
               body := [("topic", "alerts"), ("message", "90% used")]
               timeout := 10 } : HttpRequest).headers "Authorization" = none := by
  have h := C2_partial_credentials_anonymous "https://ntfy.sh/" "alerts" none
    (some "secret") (Or.inl ⟨rfl, by decide⟩)
    [⟨"Disk Full", "90% used", none, none, none, none, 10⟩]
  exact ⟨h.1, h.2 _ (by decide)⟩

/-- C3: the JSON body's `topic` field equals the supplied topic when one is
given, and the client's default topic when the topic argument is omitted. -/
theorem C3_topic_resolution (s : NtfySender) (title message : String)
    (link_url tags icon : Option String) (timeout : Int) (t : String) :
    dictGet (s.send_msg title message link_url (some t) tags icon timeout).2.body
      "topic" = some t ∧
    dictGet (s.send_msg title message link_url none tags icon timeout).2.body
      "topic" = some s.default_topic := ⟨rfl, rfl⟩

/-- C4: the JSON body consists of exactly the keys `topic` and `message`,
and `message` carries the message argument. -/
theorem C4_body_exact_keys (s : NtfySender) (title message : String)
    (link_url topic tags icon : Option String) (timeout : Int) :
    (s.send_msg title message link_url topic tags icon timeout).2.body.map
      Prod.fst = ["topic", "message"] ∧
    dictGet (s.send_msg title message link_url topic tags icon timeout).2.body
      "message" = some message := ⟨rfl, rfl⟩

/-- C5: the POST is wrapped in no handler: the transport outcome is handed
back unchanged, in particular any transport error propagates as-is, and each
send issues exactly one request (no retry or fallback). -/
theorem C5_error_propagation (s : NtfySender)
    (post : HttpRequest → Except String Unit) (title message : String)
    (link_url topic tags icon : Option String) (timeout : Int) (e : String)
    (h : post (s.send_msg title message link_url topic tags icon timeout).2 =
      Except.error e) :
    (s.send_msgE post title message link_url topic tags icon timeout).2 =
      Except.error e ∧
    (s.send_msgE post title message link_url topic tags icon timeout).2 =
      post (s.send_msg title message link_url topic tags icon timeout).2 ∧
    ∀ args : List SendArgs, (s.sendMany args).2.length = args.length :=
  ⟨h, rfl, fun args => sendMany_length s args⟩

/-- Witness for C5: a transport that fails with a timeout error makes the
concrete send return exactly that error, and a one-element send sequence
issues exactly one request. -/
theorem C5_error_propagation_witness :
    ((NtfySender.init "https://ntfy.sh/" "alerts" none none).send_msgE
        (fun _ => Except.error "connection timed out") "Disk Full" "90% used"
        none none none none 10).2 = Except.error "connection timed out" ∧
    ((NtfySender.init "https://ntfy.sh/" "alerts" none none).sendMany
        [⟨"Disk Full", "90% used", none, none, none, none, 10⟩]).2.length = 1 := by
  have h := C5_error_propagation (NtfySender.init "https://ntfy.sh/" "alerts" none none)
    (fun _ => Except.error "connection timed out") "Disk Full" "90% used"
    none none none none 10 "connection timed out" rfl
  exact ⟨h.1, h.2.2 [⟨"Disk Full", "90% used", none, none, none, none, 10⟩]⟩

/-- C6 counterexample: after a first send with `tags` provided, a second send
on the same client with `tags` omitted still carries the first call's `Tags`
entry in its request headers, so the header is not omitted from that request
as the claim states. -/
theorem C6_tags_leak_counterexample :
    dictGet ((((NtfySender.init "https://ntfy.sh/" "alerts" none none).send_msg
        "t1" "m1" none none (some "warning") none 10).1.send_msg
        "t2" "m2" none none none none 10).2).headers "Tags" =
      some (some "warning") := by
  decide

/-- C6 amended: `send_msg` writes the `Tags` entry exactly when the `tags`
argument is provided, and `Icon` exactly when `icon` is provided; when the
argument is omitted and no earlier call has left a `Tags`/`Icon` entry in the
headers dict, the request headers omit that header entirely (no null entry). -/
theorem C6_tags_icon_amended (s : NtfySender) (title message : String)
    (link_url topic : Option String) (timeout : Int) (tg ic : String)
    (tags icon : Option String) :
    dictGet (s.send_msg title message link_url topic (some tg) icon
      timeout).2.headers "Tags" = some (some tg) ∧
    (dictGet s.headers "Tags" = none →
      dictGet (s.send_msg title message link_url topic none icon
        timeout).2.headers "Tags" = none) ∧
    dictGet (s.send_msg title message link_url topic tags (some ic)
      timeout).2.headers "Icon" = some (some ic) ∧
    (dictGet s.headers "Icon" = none →
      dictGet (s.send_msg title message link_url topic tags none
        timeout).2.headers "Icon" = none) := by
  refine ⟨?_, ?_, ?_, ?_⟩
  · rw [send_msg_req_headers]
    exact dictGet_send_msg_tags_some s title message link_url topic icon timeout tg
  · intro h
    rw [send_msg_req_headers, dictGet_send_msg_tags_none]
    exact h
  · rw [send_msg_req_headers]
    exact dictGet_send_msg_icon_some s title message link_url topic tags timeout ic
  · intro h
    rw [send_msg_req_headers, dictGet_send_msg_icon_none]
    exact h

/-- Witness for the amended C6 on a freshly constructed client. -/
theorem C6_tags_icon_amended_witness :
    dictGet ((NtfySender.init "https://ntfy.sh/" "alerts" none none).send_msg
        "Disk Full" "90% used" none none (some "warning") none 10).2.headers
      "Tags" = some (some "warning") ∧
    dictGet ((NtfySender.init "https://ntfy.sh/" "alerts" none none).send_msg
        "Disk Full" "90% used" none none none none 10).2.headers "Tags" = none ∧
    dictGet ((NtfySender.init "https://ntfy.sh/" "alerts" none none).send_msg
        "Disk Full" "90% used" none none none (some "smiley") 10).2.headers
      "Icon" = some (some "smiley") ∧
    dictGet ((NtfySender.init "https://ntfy.sh/" "alerts" none none).send_msg
        "Disk Full" "90% used" none none none none 10).2.headers "Icon" = none := by
  have h := C6_tags_icon_amended (NtfySender.init "https://ntfy.sh/" "alerts" none none)
    "Disk Full" "90% used" none none 10 "warning" "smiley" none none
  exact ⟨h.1, h.2.1 (by decide), h.2.2.1, h.2.2.2 (by decide)⟩

/-- C7: `send_msg` mutates the client's shared headers dict and the mutation
persists after the call: the request carries the client's own (mutated)
headers, and a later send that omits `tags`/`icon` still carries the earlier
call's `Tags`/`Icon` values in its request headers. -/
theorem C7_mutation_persists (s : NtfySender) (t1 m1 t2 m2 : String)
    (lu1 tp1 lu2 tp2 : Option String) (tg ic : String) (to1 to2 : Int) :
    (s.send_msg t1 m1 lu1 tp1 (some tg) (some ic) to1).2.headers =
      (s.send_msg t1 m1 lu1 tp1 (some tg) (some ic) to1).1.headers ∧
    dictGet ((s.send_msg t1 m1 lu1 tp1 (some tg) (some ic) to1).1.send_msg
        t2 m2 lu2 tp2 none none to2).2.headers "Tags" = some (some tg) ∧
    dictGet ((s.send_msg t1 m1 lu1 tp1 (some tg) (some ic) to1).1.send_msg
        t2 m2 lu2 tp2 none none to2).2.headers "Icon" = some (some ic) ∧
    ((s.send_msg t1 m1 lu1 tp1 (some tg) (some ic) to1).1.send_msg
        t2 m2 lu2 tp2 none none to2).2.headers =
      ((s.send_msg t1 m1 lu1 tp1 (some tg) (some ic) to1).1.send_msg
        t2 m2 lu2 tp2 none none to2).1.headers := by
  refine ⟨rfl, ?_, ?_, rfl⟩
  · rw [send_msg_req_headers, dictGet_send_msg_tags_none]
    exact dictGet_send_msg_tags_some s t1 m1 lu1 tp1 (some ic) to1 tg
  · rw [send_msg_req_headers, dictGet_send_msg_icon_none]
    exact dictGet_send_msg_icon_some s t1 m1 lu1 tp1 (some tg) to1 ic

/-- C8: every send writes the `Click` entry with the raw `link_url` value —
a present-but-null entry when `link_url` is omitted rather than no entry —
and always writes `Title` with the title argument, empty string included. -/
theorem C8_click_null_title_always (s : NtfySender) (title message : String)
    (link_url topic tags icon : Option String) (timeout : Int) :
    dictGet (s.send_msg title message link_url topic tags icon timeout).2.headers
      "Click" = some link_url ∧
    dictGet (s.send_msg title message link_url topic tags icon timeout).2.headers
      "Title" = some (some title) := by
  rw [send_msg_req_headers]
  exact ⟨dictGet_send_msg_click s title message link_url topic tags icon timeout,
    dictGet_send_msg_title s title message link_url topic tags icon timeout⟩

/-- C9: empty-string credentials do not disable authentication: for any two
present credentials — empty strings included — the Authorization entry is
`"Basic " ++ base64(username ++ ":" ++ password)`; in particular two empty
strings give `Basic Og==`, the base64 encoding of ":". -/
theorem C9_empty_credentials_auth (url dt u p : String) :
    dictGet (NtfySender.init url dt (some u) (some p)).headers "Authorization" =
      some (some ("Basic " ++ b64encode (strBytes (u ++ ":" ++ p)))) ∧
    dictGet (NtfySender.init url dt (some "") (some "")).headers "Authorization" =
      some (some "Basic Og==") :=
  ⟨init_auth_lookup url dt u p, rfl⟩

/-- C10: `send_msg` preserves the client configuration: `server_url`,
`default_topic`, `_auth` and the `Authorization` headers entry are unchanged,
and no header key outside `Title`, `Click`, `Tags`, `Icon` is written. -/
theorem C10_send_preserves_config (s : NtfySender) (title message : String)
    (link_url topic tags icon : Option String) (timeout : Int) :
    (s.send_msg title message link_url topic tags icon timeout).1.server_url =
      s.server_url ∧
    (s.send_msg title message link_url topic tags icon timeout).1.default_topic =
      s.default_topic ∧
    (s.send_msg title message link_url topic tags icon timeout).1._auth =
      s._auth ∧
    dictGet (s.send_msg title message link_url topic tags icon timeout).1.headers
      "Authorization" = dictGet s.headers "Authorization" ∧
    ∀ k : String, k ≠ "Title" → k ≠ "Click" → k ≠ "Tags" → k ≠ "Icon" →
      dictGet (s.send_msg title message link_url topic tags icon timeout).1.headers
        k = dictGet s.headers k :=
  ⟨rfl, rfl, rfl,
    dictGet_send_msg_other s title message link_url topic tags icon timeout
      "Authorization" (by decide) (by decide) (by decide) (by decide),
    fun k h1 h2 h3 h4 =>
      dictGet_send_msg_other s title message link_url topic tags icon timeout
        k h1 h2 h3 h4⟩

/-- Witness for C10 on a concrete authenticated client, instantiating the
quantified header key at "Authorization". -/
theorem C10_send_preserves_config_witness :
    ((NtfySender.init "https://ntfy.sh/" "alerts" (some "bob")
        (some "secret")).send_msg "Disk Full" "90% used" none none none none
        10).1.server_url = "https://ntfy.sh/" ∧
    ((NtfySender.init "https://ntfy.sh/" "alerts" (some "bob")
        (some "secret")).send_msg "Disk Full" "90% used" none none none none
        10).1.default_topic = "alerts" ∧
    dictGet ((NtfySender.init "https://ntfy.sh/" "alerts" (some "bob")
        (some "secret")).send_msg "Disk Full" "90% used" none none none none
        10).1.headers "Authorization" = some (some "Basic Ym9iOnNlY3JldA==") := by
  have h := C10_send_preserves_config
    (NtfySender.init "https://ntfy.sh/" "alerts" (some "bob") (some "secret"))
    "Disk Full" "90% used" none none none none 10
  have h5 := h.2.2.2.2 "Authorization" (by decide) (by decide) (by decide) (by decide)
  exact ⟨h.1.trans (by decide), h.2.1.trans (by decide), h5.trans (by decide)⟩
